import Mathlib

/-!
Verification of the sqlite driver core (conn.go, stmt.go, tx.go, rows.go,
utils.go) against its natural-language specification.

The embedding models each driver operation as a pure function from its
inputs and the native engine's responses (return codes, reported values,
memory contents) to a result, an updated state, and a trace of native
calls.  Machine integers are modelled as Int/Nat; C pointers are modelled
by a null flag plus a byte-memory function; float64 values are carried
as their 64-bit patterns (the driver never computes with them, it only
passes them through).
-/

namespace SqliteDriver

/-! ### Native result codes and type codes (from the foreign-call surface) -/

def SQLITE_OK : Int := 0
def SQLITE_ERROR : Int := 1
def SQLITE_ROW : Int := 100
def SQLITE_DONE : Int := 101

def SQLITE_INTEGER : Int := 1
/-- SQLite fundamental type code 2 (named SQLITE_FLOAT in the constants file;
the row-scanning code refers to it as SQLITE_REAL). -/
def SQLITE_REAL : Int := 2
def SQLITE_TEXT : Int := 3
def SQLITE_BLOB : Int := 4
def SQLITE_NULL : Int := 5

/-! ### database/sql isolation levels (numeric values of sql.IsolationLevel) -/

def levelWriteCommitted : Int := 3
def levelRepeatableRead : Int := 4
def levelSnapshot : Int := 5
def levelSerializable : Int := 6
def levelLinearizable : Int := 7

/-! ### Native-call events.  Each constructor records one call into the
engine, with the arguments the driver passes (handles as Nat).  The pair of
calls made by getErrorMessage (sqlite3_errmsg / sqlite3_errcode) is
collapsed into the single event `errmsg`. -/

inductive Ev where
  | finalize (h : Nat)
  | reset (h : Nat)
  | step (h : Nat)
  | prepare (q : String)
  | exec (q : String)
  | bindParameterCount (h : Nat)
  | bindNull (h : Nat) (idx : Int)
  | bindInt64 (h : Nat) (idx : Int) (v : Int)
  | bindDouble (h : Nat) (idx : Int) (bits : UInt64)
  | bindText (h : Nat) (idx : Int) (s : String) (n : Int)
  | bindBlob (h : Nat) (idx : Int) (n : Int)
  | columnCount (h : Nat)
  | columnName (h : Nat) (i : Nat)
  | lastInsertRowid
  | changes
  | errmsg
  | closeDb
deriving DecidableEq, BEq

/-- True exactly on sqlite3_step events. -/
def isStepEv : Ev → Bool
  | .step _ => true
  | _ => false

/-- True exactly on the native bind-family calls (bind_null / bind_int64 /
bind_double / bind_text / bind_blob); sqlite3_bind_parameter_count is a
metadata query, not a bind. -/
def isBindEv : Ev → Bool
  | .bindNull _ _ => true
  | .bindInt64 _ _ _ => true
  | .bindDouble _ _ _ => true
  | .bindText _ _ _ _ => true
  | .bindBlob _ _ _ => true
  | _ => false

/-! ### Driver-level errors (the distinct error results the Go code builds) -/

inductive DrvError where
  | ctxDone
  | badConn
  | stmtClosed
  | countMismatch
  | bindNullFailed (idx : Int)
  | bindFailed (idx : Int)
  | valuerError (idx : Int)
  | unsupportedType (idx : Int)
  | execFailed
  | prepareFailed
  | emptyStatement
  | beginFailed
  | commitFailed
  | rollbackFailed
  | txAlreadyFinished
  | txConflict
  | finalizeFailed
  | closeFailed
deriving DecidableEq

/-- driver.Result as built by the driver: last-insert-id and rows-affected. -/
structure ExecResult where
  lastInsertID : Int
  rowsAffected : Int
deriving DecidableEq

/-! ### Go values accepted by bindValue.  The sized Go integer kinds are kept
apart because the conversion `int64(v)` is value-changing only for
uint64/uint.  A float32 is exactly representable as float64, so the
`goFloat32` payload carries the 64-bit pattern of its widened value.
A time.Time argument is bound as its RFC3339Nano formatting, carried here
already formatted (formatting belongs to the Go time library, not this
driver). -/

inductive GoValue where
  | nil
  | goInt64 (v : Int)
  | goInt (v : Int)
  | goInt32 (v : Int)
  | goInt16 (v : Int)
  | goInt8 (v : Int)
  | goUInt64 (v : Nat)
  | goUInt32 (v : Nat)
  | goUInt16 (v : Nat)
  | goUInt8 (v : Nat)
  | goUInt (v : Nat)
  | goBool (v : Bool)
  | goFloat64 (bits : UInt64)
  | goFloat32 (bits : UInt64)
  | goStr (s : String)
  | goBytes (bs : List UInt8)
  | goTime (formatted : String)
  | valuer (res : Except String GoValue)
  | otherType (typeName : String)

/-- driver.NamedValue: an ordinal position and a value. -/
structure NamedValue where
  ordinal : Int
  value : GoValue

/-- Go conversion int64(v) for a uint64/uint operand: reduction mod 2^64
into the signed range. -/
def uint64ToInt64 (v : Nat) : Int :=
  if v % 2 ^ 64 < 2 ^ 63 then ((v % 2 ^ 64 : Nat) : Int)
  else ((v % 2 ^ 64 : Nat) : Int) - 2 ^ 64

/-- The `driver.Valuer` unwrap step in Stmt.bind: a Valuer argument is
replaced by the result of its Value() call; anything else passes through. -/
def resolveValuer : GoValue → Except String GoValue
  | .valuer r => r
  | v => .ok v

/-- The shared tail of Stmt.bindValue: after the native bind call returned
`rc`, a non-OK code produces "bind failed at position idx" (whose message
is fetched with getErrorMessage, a native errmsg call). -/
def finishBind (idx : Int) (rc : Int) (ev : Ev) : Except DrvError Unit × List Ev :=
  if rc ≠ SQLITE_OK then (.error (.bindFailed idx), [ev, Ev.errmsg])
  else (.ok (), [ev])

/-- Stmt.bindValue: one native bind call per supported value kind; `rc` is
the engine's return code for that call. -/
def bindValue (h : Nat) (idx : Int) (v : GoValue) (rc : Int) :
    Except DrvError Unit × List Ev :=
  match v with
  | .nil =>
      if rc ≠ SQLITE_OK then (.error (.bindNullFailed idx), [Ev.bindNull h idx])
      else (.ok (), [Ev.bindNull h idx])
  | .goInt64 x => finishBind idx rc (Ev.bindInt64 h idx x)
  | .goInt x => finishBind idx rc (Ev.bindInt64 h idx x)
  | .goInt32 x => finishBind idx rc (Ev.bindInt64 h idx x)
  | .goInt16 x => finishBind idx rc (Ev.bindInt64 h idx x)
  | .goInt8 x => finishBind idx rc (Ev.bindInt64 h idx x)
  | .goUInt64 x => finishBind idx rc (Ev.bindInt64 h idx (uint64ToInt64 x))
  | .goUInt32 x => finishBind idx rc (Ev.bindInt64 h idx (x : Int))
  | .goUInt16 x => finishBind idx rc (Ev.bindInt64 h idx (x : Int))
  | .goUInt8 x => finishBind idx rc (Ev.bindInt64 h idx (x : Int))
  | .goUInt x => finishBind idx rc (Ev.bindInt64 h idx (uint64ToInt64 x))
  | .goBool b => finishBind idx rc (Ev.bindInt64 h idx (if b then 1 else 0))
  | .goFloat64 bits => finishBind idx rc (Ev.bindDouble h idx bits)
  | .goFloat32 bits => finishBind idx rc (Ev.bindDouble h idx bits)
  | .goStr s => finishBind idx rc (Ev.bindText h idx s (s.utf8ByteSize : Int))
  | .goBytes bs =>
      if bs.length = 0 then finishBind idx rc (Ev.bindBlob h idx 0)
      else finishBind idx rc (Ev.bindBlob h idx (bs.length : Int))
  | .goTime s => finishBind idx rc (Ev.bindText h idx s (-1))
  | .valuer _ => (.error (.unsupportedType idx), [])
  | .otherType _ => (.error (.unsupportedType idx), [])

/-- The argument loop of Stmt.bind: non-positive ordinals are skipped, a
Valuer is unwrapped (its failure aborts), and each value is bound; `bindRc`
gives the engine's return code for the bind at each ordinal. -/
def bindLoop (h : Nat) (bindRc : Int → Int) : List NamedValue → Except DrvError Unit × List Ev
  | [] => (.ok (), [])
  | a :: rest =>
    if a.ordinal ≤ 0 then bindLoop h bindRc rest
    else
      match resolveValuer a.value with
      | .error _ => (.error (.valuerError a.ordinal), [])
      | .ok v =>
        match bindValue h a.ordinal v (bindRc a.ordinal) with
        | (.error e, evs) => (.error e, evs)
        | (.ok _, evs) =>
          let r := bindLoop h bindRc rest
          (r.1, evs ++ r.2)

/-- Stmt.bind: reads the native parameter count (paramCount is the engine's
answer to sqlite3_bind_parameter_count), rejects an argument-count mismatch
before any bind, then runs the bind loop. -/
def bind (h : Nat) (paramCount : Nat) (args : List NamedValue) (bindRc : Int → Int) :
    Except DrvError Unit × List Ev :=
  if args.length ≠ paramCount then (.error .countMismatch, [Ev.bindParameterCount h])
  else
    let r := bindLoop h bindRc args
    (r.1, Ev.bindParameterCount h :: r.2)

/-- Stmt.ExecContext: cancellation check, closed check, bind, a single
sqlite3_step, error check (DONE and ROW both succeed), and result capture
(sqlite3_last_insert_rowid, sqlite3_changes).  The sqlite3_reset is issued
by a Go defer, so it runs when the function returns — after the return
value, including the captured result values, has been computed; it is
therefore the final event of the trace on every path past the step. -/
def execContext (h : Nat) (ctxDone closed : Bool) (paramCount : Nat)
    (args : List NamedValue) (bindRc : Int → Int) (stepRc lastId nchanges : Int) :
    Except DrvError ExecResult × List Ev :=
  if ctxDone = true then (.error .ctxDone, [])
  else if closed = true then (.error .stmtClosed, [])
  else
    let b := bind h paramCount args bindRc
    match b.1 with
    | .error e => (.error e, b.2)
    | .ok _ =>
      if stepRc ≠ SQLITE_DONE ∧ stepRc ≠ SQLITE_ROW then
        (.error .execFailed, b.2 ++ [Ev.step h, Ev.errmsg, Ev.reset h])
      else
        (.ok ⟨lastId, nchanges⟩, b.2 ++ [Ev.step h, Ev.lastInsertRowid, Ev.changes, Ev.reset h])

/-- The row-cursor value returned by QueryContext: the captured column
names. -/
structure RowsModel where
  columns : List String
deriving DecidableEq

/-- Stmt.QueryContext: cancellation check, closed check, bind, then a
sqlite3_column_count call and one sqlite3_column_name call per column;
`colName` is the engine's answer for each column index. -/
def queryContext (h : Nat) (ctxDone closed : Bool) (paramCount : Nat)
    (args : List NamedValue) (bindRc : Int → Int)
    (columnCount : Nat) (colName : Nat → String) :
    Except DrvError RowsModel × List Ev :=
  if ctxDone = true then (.error .ctxDone, [])
  else if closed = true then (.error .stmtClosed, [])
  else
    let b := bind h paramCount args bindRc
    match b.1 with
    | .error e => (.error e, b.2)
    | .ok _ =>
      (.ok ⟨(List.range columnCount).map colName⟩,
        b.2 ++ [Ev.columnCount h] ++ (List.range columnCount).map (fun i => Ev.columnName h i))

/-- Stmt.Close.  State: the statement's closed flag and the connection's
statement registry (the list of registered native handles); `finalizeRc` is
the engine's return code for sqlite3_finalize.  Returns the result, the new
closed flag, the new registry, and the trace.  Note the code sets
`s.closed = true` only after a successful finalize: a non-OK finalize
returns early with the flag still false. -/
def stmtClose (closed : Bool) (h : Nat) (stmts : List Nat) (finalizeRc : Int) :
    Except DrvError Unit × Bool × List Nat × List Ev :=
  if closed = true then (.ok (), closed, stmts, [])
  else
    let stmts1 := stmts.erase h
    if finalizeRc ≠ SQLITE_OK then (.error .finalizeFailed, false, stmts1, [Ev.finalize h])
    else (.ok (), true, stmts1, [Ev.finalize h])

/-! ### Connection and transaction state.

A Tx object is mutable shared state: `c.tx` points at the same object whose
`finished` flag Commit/Rollback mutate.  The model therefore keeps every
transaction object's finished flag in a list (indexed by an id) and lets
the connection's slot hold such an id, so mutation through the object is
visible through the slot. -/

structure ConnState where
  closed : Bool
  txs : List Bool
  txSlot : Option Nat
  stmts : List Nat
deriving DecidableEq

/-- driver.TxOptions: an isolation level and a read-only flag. -/
structure TxOptions where
  isolation : Int
  readOnly : Bool
deriving DecidableEq

/-- The BEGIN-mode switch of Conn.BeginTx. -/
def txMode (opts : TxOptions) : String :=
  if opts.readOnly = true then "DEFERRED"
  else if opts.isolation = levelRepeatableRead ∨ opts.isolation = levelSerializable
      ∨ opts.isolation = levelLinearizable then "IMMEDIATE"
  else if opts.isolation = levelWriteCommitted ∨ opts.isolation = levelSnapshot then "EXCLUSIVE"
  else "DEFERRED"

/-- Conn.PrepareContext: cancellation check, lock-free closed check, then
the native prepare; `prepareRc` and `stmtPtr` are the engine's return code
and output statement handle.  On success the statement is registered. -/
def prepareContext (st : ConnState) (ctxDone : Bool) (q : String)
    (prepareRc : Int) (stmtPtr : Nat) :
    Except DrvError Nat × ConnState × List Ev :=
  if ctxDone = true then (.error .ctxDone, st, [])
  else if st.closed = true then (.error .badConn, st, [])
  else
    if prepareRc ≠ SQLITE_OK then (.error .prepareFailed, st, [Ev.prepare q, Ev.errmsg])
    else if stmtPtr = 0 then (.error .emptyStatement, st, [Ev.prepare q])
    else (.ok stmtPtr, { st with stmts := st.stmts ++ [stmtPtr] }, [Ev.prepare q])

/-- Conn.execDirect: closed check under the lock, then sqlite3_exec and,
on success, result capture. -/
def execDirect (st : ConnState) (q : String) (execRc lastId nchanges : Int) :
    Except DrvError ExecResult × ConnState × List Ev :=
  if st.closed = true then (.error .badConn, st, [])
  else if execRc ≠ SQLITE_OK then (.error .execFailed, st, [Ev.exec q, Ev.errmsg])
  else (.ok ⟨lastId, nchanges⟩, st, [Ev.exec q, Ev.lastInsertRowid, Ev.changes])

/-- Conn.BeginTx: cancellation check, closed check, clearing of a finished
prior transaction, conflict check, then the native BEGIN; `execRc` is the
engine's return code.  On success a fresh unfinished transaction object is
created and installed in the slot. -/
def beginTx (st : ConnState) (ctxDone : Bool) (opts : TxOptions) (execRc : Int) :
    Except DrvError Nat × ConnState × List Ev :=
  if ctxDone = true then (.error .ctxDone, st, [])
  else if st.closed = true then (.error .badConn, st, [])
  else
    let st1 :=
      match st.txSlot with
      | some t => if st.txs.getD t false = true then { st with txSlot := none } else st
      | none => st
    if st1.txSlot.isSome then (.error .txConflict, st1, [])
    else
      let q := "BEGIN " ++ txMode opts
      if execRc ≠ SQLITE_OK then (.error .beginFailed, st1, [Ev.exec q, Ev.errmsg])
      else
        (.ok st1.txs.length,
          { st1 with txs := st1.txs ++ [false], txSlot := some st1.txs.length },
          [Ev.exec q])

/-- Conn.Close: finalizes every registered statement (best effort), clears
the registry, then sqlite3_close; only a successful close sets the closed
flag. -/
def connClose (st : ConnState) (closeRc : Int) :
    Except DrvError Unit × ConnState × List Ev :=
  if st.closed = true then (.ok (), st, [])
  else
    let evs := st.stmts.map Ev.finalize ++ [Ev.closeDb]
    if closeRc ≠ SQLITE_OK then (.error .closeFailed, { st with stmts := [] }, evs)
    else (.ok (), { st with stmts := [], closed := true }, evs)

/-- Tx.Commit for the transaction object with id `t`: a finished
transaction is rejected with no native call; otherwise the native COMMIT
runs and, only on success, the object is marked finished and the
connection's slot cleared. -/
def txCommit (st : ConnState) (t : Nat) (execRc : Int) :
    Except DrvError Unit × ConnState × List Ev :=
  if st.txs.getD t false = true then (.error .txAlreadyFinished, st, [])
  else if execRc ≠ SQLITE_OK then (.error .commitFailed, st, [Ev.exec "COMMIT", Ev.errmsg])
  else (.ok (), { st with txs := st.txs.set t true, txSlot := none }, [Ev.exec "COMMIT"])

/-- Tx.Rollback for the transaction object with id `t`: a finished
transaction is a successful no-op; otherwise the native ROLLBACK runs and,
only on success, the object is marked finished and the slot cleared. -/
def txRollback (st : ConnState) (t : Nat) (execRc : Int) :
    Except DrvError Unit × ConnState × List Ev :=
  if st.txs.getD t false = true then (.ok (), st, [])
  else if execRc ≠ SQLITE_OK then (.error .rollbackFailed, st, [Ev.exec "ROLLBACK", Ev.errmsg])
  else (.ok (), { st with txs := st.txs.set t true, txSlot := none }, [Ev.exec "ROLLBACK"])

/-! ### Column reading (rows.go + the byte-copy helpers of the foreign-call
file).  A C pointer is modelled as a null flag plus the byte memory it
points at. -/

/-- The 1 MB safety limit of goStringN / goBytesN. -/
def maxReadLen : Nat := 1048576

/-- goStringN: builds a Go string of exactly n bytes read from the pointer
(capped at the 1 MB safety limit); a null pointer or non-positive length
gives the empty string.  No byte value terminates the copy.  The string is
represented by its byte list. -/
def goStringN (ptrNull : Bool) (mem : Nat → UInt8) (n : Int) : List UInt8 :=
  if ptrNull = true ∨ n ≤ 0 then []
  else (List.range (min n.toNat maxReadLen)).map mem

/-- goBytesN: identical copy loop producing a byte slice. -/
def goBytesN (ptrNull : Bool) (mem : Nat → UInt8) (n : Int) : List UInt8 :=
  if ptrNull = true ∨ n ≤ 0 then []
  else (List.range (min n.toNat maxReadLen)).map mem

/-- The driver.Value a scanned column produces.  `null` is the Go nil
interface value; `bytes []` is a non-nil empty slice, a distinct value. -/
inductive Value where
  | null
  | int64 (i : Int)
  | float64 (bits : UInt64)
  | str (bs : List UInt8)
  | bytes (bs : List UInt8)
deriving DecidableEq

/-- One column of the current row as the engine reports it:
sqlite3_column_type, sqlite3_column_int64, sqlite3_column_double (bit
pattern), the text/blob pointers (null flags), the pointed-at memory and
sqlite3_column_bytes. -/
structure Col where
  ctype : Int
  ival : Int
  rbits : UInt64
  textNull : Bool
  blobNull : Bool
  mem : Nat → UInt8
  len : Int

/-- Rows.scanColumn: the switch on the engine-reported column type.  Text
and blob use the engine-reported byte length; a blob of reported length
zero short-circuits to a non-nil empty slice without touching the
pointer. -/
def scanColumn (c : Col) : Value :=
  if c.ctype = SQLITE_NULL then Value.null
  else if c.ctype = SQLITE_INTEGER then Value.int64 c.ival
  else if c.ctype = SQLITE_REAL then Value.float64 c.rbits
  else if c.ctype = SQLITE_TEXT then Value.str (goStringN c.textNull c.mem c.len)
  else if c.ctype = SQLITE_BLOB then
    if c.len = 0 then Value.bytes []
    else Value.bytes (goBytesN c.blobNull c.mem c.len)
  else Value.null

/-! ### Heuristic integer timestamp decoding (utils.go) -/

def nanosecondsPerSecond : Int := 1000000000
def millisecondsPerSecond : Int := 1000
def microsecondsPerSecond : Int := 1000000
def nanosecondsPerMillisecond : Int := 1000000
def nanosecondsPerMicrosecond : Int := 1000
def unixMillisMin : Int := 1000000000000
def unixMicrosMin : Int := 1000000000000000
def unixNanosMin : Int := 1000000000000000000

/-- parseTimeInteger: rejects negatives, then picks the unit by magnitude;
the result is the (seconds, nanoseconds) pair passed to time.Unix.  All
divisions are on non-negative operands, where Go's truncating division
agrees with Int's Euclidean division. -/
def parseTimeInteger (i : Int) : Option (Int × Int) :=
  if i < 0 then none
  else if i ≥ unixNanosMin then
    some (i / nanosecondsPerSecond, i % nanosecondsPerSecond)
  else if i ≥ unixMicrosMin then
    some (i / microsecondsPerSecond, (i % microsecondsPerSecond) * nanosecondsPerMicrosecond)
  else if i ≥ unixMillisMin then
    some (i / millisecondsPerSecond, (i % millisecondsPerSecond) * nanosecondsPerMillisecond)
  else some (i, 0)

/-- Modelled from the spec (claim C7's reading): the decoded instant as
total nanoseconds since the Unix epoch — at or above 10^18 the input is
nanoseconds, at or above 10^15 microseconds, at or above 10^12
milliseconds, otherwise seconds; negatives are rejected. -/
def claimTimeDecode (i : Int) : Option Int :=
  if i < 0 then none
  else if i ≥ 1000000000000000000 then some i
  else if i ≥ 1000000000000000 then some (i * 1000)
  else if i ≥ 1000000000000 then some (i * 1000000)
  else some (i * 1000000000)

/-! ### Helper lemmas -/

lemma goBytesN_eq (mem : Nat → UInt8) (n : Int) (h1 : 0 < n)
    (h2 : n.toNat ≤ maxReadLen) :
    goBytesN false mem n = (List.range n.toNat).map mem := by
  rw [goBytesN, if_neg (by simp; omega), Nat.min_eq_left h2]

lemma goStringN_eq (mem : Nat → UInt8) (n : Int) (h1 : 0 < n)
    (h2 : n.toNat ≤ maxReadLen) :
    goStringN false mem n = (List.range n.toNat).map mem := by
  rw [goStringN, if_neg (by simp; omega), Nat.min_eq_left h2]

lemma goBytesN_length (mem : Nat → UInt8) (n : Int) (h : 0 < n) :
    (goBytesN false mem n).length = min n.toNat maxReadLen := by
  rw [goBytesN, if_neg (by simp; omega)]
  simp

lemma bindValue_no_step (h : Nat) (idx : Int) (v : GoValue) (rc : Int) :
    (bindValue h idx v rc).2.countP isStepEv = 0 := by
  cases v <;> simp only [bindValue, finishBind] <;> (try split_ifs) <;>
    simp [isStepEv]

lemma bindLoop_no_step (h : Nat) (brc : Int → Int) (args : List NamedValue) :
    (bindLoop h brc args).2.countP isStepEv = 0 := by
  induction args with
  | nil => simp [bindLoop]
  | cons a rest ih =>
    rw [bindLoop]
    split_ifs with hord
    · exact ih
    · rcases hrv : resolveValuer a.value with e | v
      · simp
      · have hv := bindValue_no_step h a.ordinal v (brc a.ordinal)
        rcases hbv : bindValue h a.ordinal v (brc a.ordinal) with ⟨r, evs⟩
        rw [hbv] at hv
        simp only [hbv]
        cases r with
        | error e => simpa using hv
        | ok u =>
          simp only [List.countP_append] at *
          simp [hv, ih]

lemma bind_no_step (h : Nat) (pc : Nat) (args : List NamedValue) (brc : Int → Int) :
    (bind h pc args brc).2.countP isStepEv = 0 := by
  rw [bind]
  split_ifs with hne
  · simp [isStepEv]
  · simpa [isStepEv] using bindLoop_no_step h brc args

/-! ### Claim theorems -/

/-- Claim C1 (code bug, at the failing input): with a non-closed statement
(handle 7, registered) whose native finalize fails with SQLITE_ERROR,
Stmt.Close deregisters the statement and reports the failure, but — against
the specified behaviour — leaves the closed flag false, so a second Close
issues sqlite3_finalize again on the already-finalized handle. -/
theorem stmt_close_code_bug :
    (stmtClose false 7 [7] SQLITE_ERROR).1 = .error .finalizeFailed
    ∧ (stmtClose false 7 [7] SQLITE_ERROR).2.1 = false
    ∧ (stmtClose false 7 [7] SQLITE_ERROR).2.2.1 = []
    ∧ (stmtClose false 7 [7] SQLITE_ERROR).2.2.2 = [Ev.finalize 7]
    ∧ (stmtClose ((stmtClose false 7 [7] SQLITE_ERROR).2.1) 7
        ((stmtClose false 7 [7] SQLITE_ERROR).2.2.1) SQLITE_OK).2.2.2 = [Ev.finalize 7] := by
  exact ⟨rfl, by decide, by decide, by decide, by decide⟩

/-- Claim C7: the heuristic integer timestamp decoder rejects negatives and
selects the unit by magnitude — at or above 10^18 nanoseconds, at or above
10^15 microseconds, at or above 10^12 milliseconds, otherwise seconds —
so that the decoded instant (in total nanoseconds since the epoch) matches
the claim's threshold cascade, and the four cited examples decode at the
stated scales. -/
theorem parse_time_integer_thresholds :
    (∀ i : Int,
      (parseTimeInteger i).map (fun p => p.1 * nanosecondsPerSecond + p.2) = claimTimeDecode i)
    ∧ parseTimeInteger (-1) = none
    ∧ parseTimeInteger 1700000000 = some (1700000000, 0)
    ∧ parseTimeInteger 1700000000000 = some (1700000000, 0)
    ∧ parseTimeInteger 1700000000000000 = some (1700000000, 0)
    ∧ parseTimeInteger 1700000000000000000 = some (1700000000, 0) := by
  refine ⟨fun i => ?_, by decide, by decide, by decide, by decide, by decide⟩
  simp only [parseTimeInteger, claimTimeDecode, nanosecondsPerSecond, microsecondsPerSecond,
    millisecondsPerSecond, nanosecondsPerMicrosecond, nanosecondsPerMillisecond,
    unixNanosMin, unixMicrosMin, unixMillisMin]
  split_ifs <;> simp <;> omega

/-- Claim C8 counterexample: for a blob whose engine-reported length is
2^20 + 1 bytes, goBytesN copies only the 1 MB safety limit, so the number
of bytes read into the host value is not the reported length. -/
theorem read_len_counterexample :
    (goBytesN false (fun _ => 1) 1048577).length ≠ (1048577 : Int).toNat := by
  rw [goBytesN_length _ _ (by decide)]
  decide

/-- Claim C8 (amended): for text and blob columns whose engine-reported
length is positive and at most the 1 MB safety limit, decoding reads
exactly the reported number of bytes from the engine's buffer — the copy
is position-by-position, never scanning for a zero terminator — so such
payloads with embedded zero bytes are reproduced in full; beyond the limit
the copy is truncated to 2^20 bytes. -/
theorem read_len_amended (mem : Nat → UInt8) (n : Int) (h1 : 0 < n)
    (h2 : n.toNat ≤ maxReadLen) :
    goBytesN false mem n = (List.range n.toNat).map mem
    ∧ goStringN false mem n = (List.range n.toNat).map mem
    ∧ (∀ c : Col, c.ctype = SQLITE_BLOB → c.blobNull = false → c.len = n →
        scanColumn c = Value.bytes ((List.range n.toNat).map c.mem))
    ∧ (∀ c : Col, c.ctype = SQLITE_TEXT → c.textNull = false → c.len = n →
        scanColumn c = Value.str ((List.range n.toNat).map c.mem)) := by
  refine ⟨goBytesN_eq mem n h1 h2, goStringN_eq mem n h1 h2,
    fun c hc hnull hlen => ?_, fun c hc hnull hlen => ?_⟩
  · have hlen0 : ¬ c.len = 0 := by omega
    simp only [scanColumn, hc, SQLITE_BLOB, SQLITE_NULL, SQLITE_INTEGER, SQLITE_REAL,
      SQLITE_TEXT]
    norm_num [hlen0, hnull, hlen, goBytesN_eq c.mem n h1 h2]
    omega
  · simp only [scanColumn, hc, SQLITE_TEXT, SQLITE_NULL, SQLITE_INTEGER, SQLITE_REAL]
    norm_num [hnull, hlen, goStringN_eq c.mem n h1 h2]

/-- Witness for C8's amended theorem: a 3-byte blob payload with an
embedded zero byte is reproduced in full. -/
theorem read_len_amended_witness :
    goBytesN false (fun i => if i == 1 then 0 else 7) 3 = [7, 0, 7]
    ∧ scanColumn ⟨SQLITE_BLOB, 0, 0, false, false, (fun i => if i == 1 then 0 else 7), 3⟩
        = Value.bytes [7, 0, 7] := by
  have h := read_len_amended (fun i => if i == 1 then 0 else 7) 3 (by decide) (by decide)
  constructor
  · rw [h.1]; decide
  · rw [h.2.2.1 ⟨SQLITE_BLOB, 0, 0, false, false, (fun i => if i == 1 then 0 else 7), 3⟩
      rfl rfl rfl]
    decide

/-- Claim C10: a column whose engine-reported kind is NULL decodes to the
nil host value, while a blob column of reported length zero decodes to an
empty, non-nil byte slice — two distinct host values. -/
theorem scan_null_vs_empty_blob (c : Col) :
    (c.ctype = SQLITE_NULL → scanColumn c = Value.null)
    ∧ (c.ctype = SQLITE_BLOB → c.len = 0 → scanColumn c = Value.bytes [])
    ∧ Value.bytes ([] : List UInt8) ≠ Value.null := by
  refine ⟨fun h => by simp [scanColumn, h], fun h h0 => ?_, by decide⟩
  simp only [scanColumn, h, h0, SQLITE_BLOB, SQLITE_NULL, SQLITE_INTEGER, SQLITE_REAL,
    SQLITE_TEXT]
  norm_num

/-- Witness for C10: a concrete NULL column and a concrete zero-length blob
column. -/
theorem scan_null_vs_empty_blob_witness :
    scanColumn ⟨SQLITE_NULL, 0, 0, false, false, fun _ => 0, 0⟩ = Value.null
    ∧ scanColumn ⟨SQLITE_BLOB, 0, 0, false, false, fun _ => 0, 0⟩ = Value.bytes [] := by
  exact ⟨(scan_null_vs_empty_blob _).1 rfl, (scan_null_vs_empty_blob _).2.1 rfl rfl⟩

/-- Claim C3: once a connection's close() has completed (which is exactly
what sets the closed flag), every subsequent PrepareContext, execDirect and
BeginTx call fails with the connection-closed error (driver.ErrBadConn)
with an empty native-call trace and an unchanged state. -/
theorem conn_closed_rejects (st : ConnState) (q : String) (prc : Int) (p : Nat)
    (erc lid ch : Int) (opts : TxOptions) (brc : Int)
    (hcl : st.closed = true) :
    prepareContext st false q prc p = (.error .badConn, st, [])
    ∧ execDirect st q erc lid ch = (.error .badConn, st, [])
    ∧ beginTx st false opts brc = (.error .badConn, st, [])
    ∧ (∀ st2 : ConnState, ∀ crc : Int, st2.closed = false →
        (connClose st2 crc).1 = .ok () → (connClose st2 crc).2.1.closed = true) := by
  refine ⟨by simp [prepareContext, hcl], by simp [execDirect, hcl], by simp [beginTx, hcl],
    fun st2 crc h2 hok => ?_⟩
  by_cases hrc : crc = SQLITE_OK
  · simp [connClose, h2, hrc]
  · simp [connClose, h2, hrc] at hok

/-- Witness for C3: a concrete closed connection rejects prepare, and a
successful close on an open connection sets the closed flag. -/
theorem conn_closed_rejects_witness :
    prepareContext ⟨true, [], none, []⟩ false "SELECT 1" 0 1
      = (.error .badConn, ⟨true, [], none, []⟩, [])
    ∧ (connClose ⟨false, [], none, []⟩ 0).2.1.closed = true := by
  exact ⟨(conn_closed_rejects ⟨true, [], none, []⟩ "SELECT 1" 0 1 0 0 0 ⟨0, false⟩ 0 rfl).1,
    (conn_closed_rejects ⟨true, [], none, []⟩ "SELECT 1" 0 1 0 0 0 ⟨0, false⟩ 0 rfl).2.2.2
      ⟨false, [], none, []⟩ 0 rfl rfl⟩

/-- Claim C4: Commit on a finished transaction fails with the
already-finished error and issues no native call; Commit whose native
COMMIT fails returns the engine error leaving the state untouched
(finished flag unset, connection slot unchanged); Rollback on a finished
transaction returns success with no native call; and a successful Commit
or Rollback marks the transaction finished and clears the connection's
transaction slot. -/
theorem tx_finish_semantics (st : ConnState) (t : Nat) (rc : Int) :
    (st.txs.getD t false = true → txCommit st t rc = (.error .txAlreadyFinished, st, []))
    ∧ (st.txs.getD t false = false → rc ≠ SQLITE_OK →
        txCommit st t rc = (.error .commitFailed, st, [Ev.exec "COMMIT", Ev.errmsg]))
    ∧ (st.txs.getD t false = true → txRollback st t rc = (.ok (), st, []))
    ∧ (st.txs.getD t false = false → rc = SQLITE_OK →
        txCommit st t rc
          = (.ok (), { st with txs := st.txs.set t true, txSlot := none }, [Ev.exec "COMMIT"])
        ∧ txRollback st t rc
          = (.ok (), { st with txs := st.txs.set t true, txSlot := none }, [Ev.exec "ROLLBACK"])
        ∧ (t < st.txs.length →
            (txCommit st t rc).2.1.txs.getD t false = true
            ∧ (txCommit st t rc).2.1.txSlot = none)) := by
  refine ⟨fun hf => ?_, fun hf hrc => ?_, fun hf => ?_, fun hf hrc => ?_⟩ <;>
    rw [List.getD_eq_getElem?_getD] at hf
  · simp [txCommit, hf]
  · simp [txCommit, hf, hrc]
  · simp [txRollback, hf]
  · refine ⟨by simp [txCommit, hf, hrc], by simp [txRollback, hf, hrc], fun ht => ?_⟩
    have hf2 : st.txs[t] = false := by simpa [List.getElem?_eq_getElem ht] using hf
    simp [txCommit, hf2, hrc, List.getElem?_set, ht]

/-- Witness for C4: a connection with one unfinished transaction whose
COMMIT succeeds, and one with a finished transaction that Commit rejects
and Rollback ignores. -/
theorem tx_finish_semantics_witness :
    txCommit ⟨false, [false], some 0, []⟩ 0 0
      = (.ok (), ⟨false, [true], none, []⟩, [Ev.exec "COMMIT"])
    ∧ txCommit ⟨false, [true], some 0, []⟩ 0 0 = (.error .txAlreadyFinished,
        ⟨false, [true], some 0, []⟩, [])
    ∧ txRollback ⟨false, [true], none, []⟩ 0 0 = (.ok (), ⟨false, [true], none, []⟩, []) := by
  exact ⟨((tx_finish_semantics ⟨false, [false], some 0, []⟩ 0 0).2.2.2 rfl rfl).1,
    (tx_finish_semantics ⟨false, [true], some 0, []⟩ 0 0).1 rfl,
    (tx_finish_semantics ⟨false, [true], none, []⟩ 0 0).2.2.1 rfl⟩

/-- Claim C5: on an open connection, BeginTx fails with the
transaction-conflict error exactly when the slot holds an unfinished
transaction; a finished transaction in the slot is cleared first, so with
a successful native BEGIN the call succeeds, as it does with an empty
slot. -/
theorem begin_conflict_iff (st : ConnState) (opts : TxOptions) (rc : Int)
    (hcl : st.closed = false) :
    ((beginTx st false opts rc).1 = .error .txConflict
      ↔ ∃ t, st.txSlot = some t ∧ st.txs.getD t false = false)
    ∧ (∀ t, st.txSlot = some t → st.txs.getD t false = true → rc = SQLITE_OK →
        (beginTx st false opts rc).1 = .ok st.txs.length)
    ∧ (st.txSlot = none → rc = SQLITE_OK →
        (beginTx st false opts rc).1 = .ok st.txs.length) := by
  refine ⟨?_, fun t ht hf hrc => ?_, fun hn hrc => ?_⟩
  · cases hslot : st.txSlot with
    | none =>
      by_cases hrc : rc = SQLITE_OK <;>
        simp [beginTx, hcl, hslot, hrc]
    | some t =>
      cases hf : (st.txs[t]?).getD false with
      | true =>
        by_cases hrc : rc = SQLITE_OK <;>
          simp [beginTx, hcl, hslot, hf, hrc]
      | false =>
        simp [beginTx, hcl, hslot, hf]
  · rw [List.getD_eq_getElem?_getD] at hf
    simp [beginTx, hcl, ht, hf, hrc]
  · simp [beginTx, hcl, hn, hrc]

/-- Witness for C5: a slot holding an unfinished transaction conflicts; a
slot holding a finished transaction is cleared and BEGIN succeeds. -/
theorem begin_conflict_iff_witness :
    (beginTx ⟨false, [false], some 0, []⟩ false ⟨0, false⟩ 0).1 = .error .txConflict
    ∧ (beginTx ⟨false, [true], some 0, []⟩ false ⟨0, false⟩ 0).1 = .ok 1 := by
  refine ⟨(begin_conflict_iff ⟨false, [false], some 0, []⟩ ⟨0, false⟩ 0 rfl).1.mpr
      ⟨0, rfl, rfl⟩,
    (begin_conflict_iff ⟨false, [true], some 0, []⟩ ⟨0, false⟩ 0 rfl).2.1 0 rfl rfl rfl⟩

/-- Claim C2 counterexample: at a concrete successful exec (no parameters,
step returns SQLITE_DONE) the native-call trace is parameter-count, step,
last-insert-rowid, changes, reset: the deferred sqlite3_reset runs after
the result values are captured, so the reset's position is not before the
capture positions as the claim states. -/
theorem exec_reset_order_counterexample :
    (execContext 2 false false 0 [] (fun _ => 0) SQLITE_DONE 5 1).2
      = [Ev.bindParameterCount 2, Ev.step 2, Ev.lastInsertRowid, Ev.changes, Ev.reset 2]
    ∧ ¬ ((([Ev.bindParameterCount 2, Ev.step 2, Ev.lastInsertRowid, Ev.changes,
          Ev.reset 2] : List Ev).findIdx (fun e => e == Ev.reset 2))
        < (([Ev.bindParameterCount 2, Ev.step 2, Ev.lastInsertRowid, Ev.changes,
          Ev.reset 2] : List Ev).findIdx (fun e => e == Ev.lastInsertRowid))) := by
  exact ⟨by decide, by decide⟩

/-- Claim C2 (amended): after a successful bind, ExecContext steps the
native statement exactly once; a DONE or ROW step result is success and
anything else is the engine error; the statement is reset regardless of
the step outcome, and — the reset being issued by a defer — it is the
final native call, occurring after the last-insert-id and rows-changed
values are captured on the success path. -/
theorem exec_context_amended (h : Nat) (pc : Nat) (args : List NamedValue)
    (brc : Int → Int) (stepRc lid ch : Int)
    (hb : (bind h pc args brc).1 = Except.ok ()) :
    ((execContext h false false pc args brc stepRc lid ch).2.countP isStepEv = 1)
    ∧ ((stepRc = SQLITE_DONE ∨ stepRc = SQLITE_ROW) →
        execContext h false false pc args brc stepRc lid ch
          = (.ok ⟨lid, ch⟩,
            (bind h pc args brc).2
              ++ [Ev.step h, Ev.lastInsertRowid, Ev.changes, Ev.reset h]))
    ∧ (¬(stepRc = SQLITE_DONE ∨ stepRc = SQLITE_ROW) →
        execContext h false false pc args brc stepRc lid ch
          = (.error .execFailed,
            (bind h pc args brc).2 ++ [Ev.step h, Ev.errmsg, Ev.reset h]))
    ∧ ((execContext h false false pc args brc stepRc lid ch).2.getLast?
        = some (Ev.reset h)) := by
  have hexec : execContext h false false pc args brc stepRc lid ch =
      if stepRc ≠ SQLITE_DONE ∧ stepRc ≠ SQLITE_ROW then
        (.error .execFailed,
          (bind h pc args brc).2 ++ [Ev.step h, Ev.errmsg, Ev.reset h])
      else
        (.ok ⟨lid, ch⟩,
          (bind h pc args brc).2
            ++ [Ev.step h, Ev.lastInsertRowid, Ev.changes, Ev.reset h]) := by
    simp only [execContext, hb]
    simp
  have hcnt := bind_no_step h pc args brc
  by_cases hs : stepRc = SQLITE_DONE ∨ stepRc = SQLITE_ROW
  · have hcond : ¬(stepRc ≠ SQLITE_DONE ∧ stepRc ≠ SQLITE_ROW) := by tauto
    rw [hexec, if_neg hcond]
    refine ⟨?_, fun _ => rfl, fun hn => absurd hs hn, ?_⟩
    · simp [List.countP_append, hcnt, isStepEv]
    · rw [show (bind h pc args brc).2
          ++ [Ev.step h, Ev.lastInsertRowid, Ev.changes, Ev.reset h]
          = ((bind h pc args brc).2 ++ [Ev.step h, Ev.lastInsertRowid, Ev.changes])
            ++ [Ev.reset h] by simp]
      exact List.getLast?_concat _
  · have hcond : stepRc ≠ SQLITE_DONE ∧ stepRc ≠ SQLITE_ROW := by tauto
    rw [hexec, if_pos hcond]
    refine ⟨?_, fun hy => absurd hy hs, fun _ => rfl, ?_⟩
    · simp [List.countP_append, hcnt, isStepEv]
    · rw [show (bind h pc args brc).2 ++ [Ev.step h, Ev.errmsg, Ev.reset h]
          = ((bind h pc args brc).2 ++ [Ev.step h, Ev.errmsg]) ++ [Ev.reset h] by simp]
      exact List.getLast?_concat _

/-- Witness for C2's amended theorem: a parameterless statement whose step
returns SQLITE_ROW succeeds with the captures before the final reset. -/
theorem exec_context_amended_witness :
    execContext 3 false false 0 [] (fun _ => 0) SQLITE_ROW 9 2
      = (.ok ⟨9, 2⟩, [Ev.bindParameterCount 3, Ev.step 3, Ev.lastInsertRowid,
          Ev.changes, Ev.reset 3]) := by
  have h := (exec_context_amended 3 0 [] (fun _ => 0) SQLITE_ROW 9 2 rfl).2.1 (Or.inr rfl)
  rw [h]
  rfl

/-- Claim C6: a call with an argument count differing from the native
parameter count fails with the count-mismatch error before any native bind
call — the trace holds only the parameter-count query — both through exec
and through query. -/
theorem bind_count_mismatch (h pc : Nat) (args : List NamedValue) (brc : Int → Int)
    (stepRc lid ch : Int) (cc : Nat) (cn : Nat → String)
    (hne : args.length ≠ pc) :
    bind h pc args brc = (.error .countMismatch, [Ev.bindParameterCount h])
    ∧ execContext h false false pc args brc stepRc lid ch
        = (.error .countMismatch, [Ev.bindParameterCount h])
    ∧ queryContext h false false pc args brc cc cn
        = (.error .countMismatch, [Ev.bindParameterCount h])
    ∧ ([Ev.bindParameterCount h] : List Ev).countP isBindEv = 0 := by
  have hb : bind h pc args brc = (.error .countMismatch, [Ev.bindParameterCount h]) := by
    simp [bind, hne]
  refine ⟨hb, ?_, ?_, by simp [isBindEv]⟩
  · simp only [execContext, hb]
    simp
  · simp only [queryContext, hb]
    simp

/-- Witness for C6: one argument against zero native parameters. -/
theorem bind_count_mismatch_witness :
    bind 4 0 [⟨1, GoValue.nil⟩] (fun _ => 0)
      = (.error .countMismatch, [Ev.bindParameterCount 4]) :=
  (bind_count_mismatch 4 0 [⟨1, GoValue.nil⟩] (fun _ => 0) 0 0 0 0 (fun _ => "")
    (by decide)).1

end SqliteDriver
